import Mathlib

/-!
Verification of the `AppController` lifecycle and per-frame logic of the
Art-For-Everywhere AR sample application (cross-platform C++ `AppController`
over the vendored Vuforia Engine C API).

The engine itself is an opaque binary: every engine call made by the
controller is modelled by an environment record carrying the call results
the engine would return, and by an explicit trace of the engine calls the
controller issues.  The controller's own state (flags, cached handles,
relocalization timer) is modelled explicitly and each controller method is
translated into a pure function from (environment, state) to
(state, outputs, call trace), following `AppController.cpp` line by line.

Time: `std::chrono::steady_clock` time points are modelled as natural
numbers counting whole seconds; `duration_cast<seconds>` of a difference of
such time points is then exact subtraction.
-/

namespace AppCtl

/-- VuResult from Core.h: outcome of an engine call. -/
inductive VuResult
  | VU_FAILED
  | VU_SUCCESS
deriving DecidableEq, Repr, Fintype

/-- VuObservationPoseStatus from ObservationTypes: pose status of an observation. -/
inductive VuObservationPoseStatus
  | NO_POSE
  | LIMITED
  | TRACKED
  | EXTENDED_TRACKED
deriving DecidableEq, Repr

/-- VuDevicePoseObservationStatusInfo from DevicePoseObserver.h. -/
inductive VuDevicePoseStatusInfo
  | NORMAL
  | NOT_OBSERVED
  | UNKNOWN
  | INITIALIZING
  | RELOCALIZING
  | EXCESSIVE_MOTION
  | INSUFFICIENT_FEATURES
  | INSUFFICIENT_LIGHT
deriving DecidableEq, Repr

/-- The device-pose data cached by `finishRender`s relocalization check:
the pose status and status info of `mLatestDevicePoseData`. -/
structure PoseObs where
  poseStatus : VuObservationPoseStatus
  poseStatusInfo : VuDevicePoseStatusInfo
deriving DecidableEq, Repr

/-- The condition tested at the top of `AppController::finishRender`:
`poseStatus == VU_OBSERVATION_POSE_STATUS_LIMITED &&
 poseStatusInfo == VU_DEVICE_POSE_OBSERVATION_STATUS_INFO_RELOCALIZING`. -/
def isRelocalizing (d : PoseObs) : Bool :=
  d.poseStatus = VuObservationPoseStatus.LIMITED &&
    d.poseStatusInfo = VuDevicePoseStatusInfo.RELOCALIZING

/-- `MAX_RELOCALIZING_SECONDS` from AppController.h. -/
def MAX_RELOCALIZING_SECONDS : Nat := 15

/-- The relocalization-timer portion of the controller state:
`mTimingRelocalizingState` and `mEnteredRelocalizingState` (seconds). -/
structure RelocState where
  mTimingRelocalizingState : Bool
  mEnteredRelocalizingState : Nat
deriving DecidableEq, Repr

/-- Initial controller state: `mTimingRelocalizingState{ false }`; the entry
time point is default-initialized (epoch). -/
def RelocState.init : RelocState := ⟨false, 0⟩

/-- Value of `mEnteredRelocalizingState` after the
`if (!mTimingRelocalizingState) mEnteredRelocalizingState = steady_clock::now();`
statement in `finishRender`. -/
def relocEntered (s : RelocState) (now : Nat) : Nat :=
  if s.mTimingRelocalizingState then s.mEnteredRelocalizingState else now

/-- The relocalization check in `AppController::finishRender`: given the
cached device-pose data `d` and the current steady-clock time `now`
(seconds), returns the updated timer state and whether
`vuEngineResetWorldTracking` was invoked. -/
def finishRenderRelocCheck (s : RelocState) (d : PoseObs) (now : Nat) :
    RelocState × Bool :=
  if isRelocalizing d then
    if now - relocEntered s now > MAX_RELOCALIZING_SECONDS then
      (⟨false, relocEntered s now⟩, true)
    else
      (⟨true, relocEntered s now⟩, false)
  else
    (⟨false, s.mEnteredRelocalizingState⟩, false)

/-- One observed `finishRender` call: the cached device-pose data at the
call and the steady-clock time (seconds) of the call. -/
structure Frame where
  obs : PoseObs
  now : Nat
deriving DecidableEq, Repr

/-- State transition of the relocalization timer at one frame. -/
def stepReloc (s : RelocState) (f : Frame) : RelocState :=
  (finishRenderRelocCheck s f.obs f.now).1

/-- The timer state before the `j`-th `finishRender` call of a frame
sequence, starting from the initial controller state. -/
def stateBefore (fs : List Frame) (j : Nat) : RelocState :=
  (fs.take j).foldl stepReloc RelocState.init

/-- Whether `vuEngineResetWorldTracking` is invoked at the `j`-th
`finishRender` call of a frame sequence. -/
def resetAt (fs : List Frame) (j : Fin fs.length) : Bool :=
  (finishRenderRelocCheck (stateBefore fs j.val) (fs.get j).obs (fs.get j).now).2

/-- The trace of (post-state, reset-invoked) pairs over a frame sequence. -/
def relocTrace (s : RelocState) : List Frame → List (RelocState × Bool)
  | [] => []
  | f :: rest =>
    let r := finishRenderRelocCheck s f.obs f.now
    r :: relocTrace r.1 rest

/-- A `limited+relocalizing` cached device-pose datum. -/
def relocObs : PoseObs :=
  ⟨VuObservationPoseStatus.LIMITED, VuDevicePoseStatusInfo.RELOCALIZING⟩

/-- A normally tracked cached device-pose datum. -/
def trackedObs : PoseObs :=
  ⟨VuObservationPoseStatus.TRACKED, VuDevicePoseStatusInfo.NORMAL⟩

/-- The frame sequence of the spec scenario at a frame rate of 1 frame per
second: `threshold_seconds * frame_rate + 1` consecutive limited+relocalizing
frames, one per second. -/
def thresholdFramesAtOneHz : List Frame :=
  (List.range (MAX_RELOCALIZING_SECONDS * 1 + 1)).map (fun k => ⟨relocObs, k * 1⟩)

/-- `(threshold_seconds + 1) * frame_rate + 1` consecutive limited+relocalizing
frames at 1 frame per second. -/
def oneHzResetFrames : List Frame :=
  (List.range ((MAX_RELOCALIZING_SECONDS + 1) * 1 + 1)).map (fun k => ⟨relocObs, k * 1⟩)

/-- Two limited+relocalizing frames 16 seconds apart. -/
def twoRelocFrames : List Frame := [⟨relocObs, 0⟩, ⟨relocObs, 16⟩]

/-- `AppController::IMAGE_TARGET_ID`. -/
def IMAGE_TARGET_ID : Nat := 0

/-- `AppController::MODEL_TARGET_ID`. -/
def MODEL_TARGET_ID : Nat := 1

/-- State-affecting engine calls issued by the controller (queries such as
`vuEngineIsRunning` or `vuEngineGetCameraController` with pure results are
carried in the environment records instead). -/
inductive EngineCall
  | setActiveVideoMode
  | engineStart
  | setFocusModeContinuousAuto
  | setFocusModeTriggerAuto
  | engineStop
  | destroyObjectObserver
  | destroyDevicePoseObserver
  | engineDestroy
  | resetWorldTracking
  | acquireLatestState
  | stateRelease
deriving DecidableEq, Repr, Fintype

/-- Results the engine returns to the calls made by `AppController::startAR`. -/
structure StartAREnv where
  engineValid : Bool
  isRunning : Bool
  setVideoModeResult : VuResult
  startResult : VuResult
  setFocusResult : VuResult
deriving DecidableEq, Repr, Fintype

/-- `AppController::startAR`: from the engine environment and the current
`mARStarted` flag, compute (return value, new `mARStarted`, engine calls
issued, in order).  Failures of the video-mode and focus-mode calls are
logged but do not change the outcome, exactly as in the source. -/
def startAR (env : StartAREnv) (mARStarted : Bool) : Bool × Bool × List EngineCall :=
  if !env.engineValid then (false, mARStarted, [])
  else if env.isRunning then (false, mARStarted, [])
  else if env.startResult ≠ VuResult.VU_SUCCESS then
    (false, mARStarted, [EngineCall.setActiveVideoMode, EngineCall.engineStart])
  else
    (true, true,
      [EngineCall.setActiveVideoMode, EngineCall.engineStart,
        EngineCall.setFocusModeContinuousAuto])

/-- Results the engine returns to the calls made by `AppController::stopAR`. -/
structure StopAREnv where
  engineValid : Bool
  isRunning : Bool
  stopResult : VuResult
deriving DecidableEq, Repr, Fintype

/-- `AppController::stopAR`: from the engine environment and the current
`mARStarted` flag, compute (return value, new `mARStarted`, engine calls
issued).  Note that `mARStarted = false` is assigned before `vuEngineStop`
is attempted. -/
def stopAR (env : StopAREnv) (mARStarted : Bool) : Bool × Bool × List EngineCall :=
  if !env.engineValid then (false, mARStarted, [])
  else if !env.isRunning then (false, mARStarted, [])
  else if env.stopResult ≠ VuResult.VU_SUCCESS then (false, false, [EngineCall.engineStop])
  else (true, false, [EngineCall.engineStop])

/-- All engine-creation error codes declared in the vendored headers that
can be reported through the `errorCode` out parameter of `vuEngineCreate`:
`VuEngineCreationError`, `VuLicenseConfigError`, `VuRenderConfigError` and
`VuPlatformAndroidConfigError`. -/
inductive VuEngineCreationError
  | NONE
  | DEVICE_NOT_SUPPORTED
  | PERMISSION_ERROR
  | LICENSE_ERROR
  | INITIALIZATION
  | LICENSE_CONFIG_MISSING_KEY
  | LICENSE_CONFIG_INVALID_KEY
  | LICENSE_CONFIG_NO_NETWORK_PERMANENT
  | LICENSE_CONFIG_NO_NETWORK_TRANSIENT
  | LICENSE_CONFIG_BAD_REQUEST
  | LICENSE_CONFIG_KEY_CANCELED
  | LICENSE_CONFIG_PRODUCT_TYPE_MISMATCH
  | LICENSE_CONFIG_UNKNOWN
  | RENDER_CONFIG_UNSUPPORTED_BACKEND
  | RENDER_CONFIG_FAILED_TO_SET_VIDEO_BG_VIEWPORT
  | PLATFORM_ANDROID_CONFIG_INITIALIZATION_ERROR
  | PLATFORM_ANDROID_CONFIG_INVALID_ACTIVITY
  | PLATFORM_ANDROID_CONFIG_INVALID_JAVA_VM
deriving DecidableEq, Repr, Fintype

/-- `AppController::initErrorToString`: the switch mapping an
engine-creation error code to a human-readable message; the
`VU_ENGINE_CREATION_ERROR_INITIALIZATION` case shares the `default`
branch of the switch. -/
def initErrorToString (error : VuEngineCreationError) : String :=
  match error with
  | .DEVICE_NOT_SUPPORTED =>
    "Vuforia failed to initialize because the device is not supported."
  | .PERMISSION_ERROR =>
    "Vuforia cannot initialize because access to the camera was denied."
  | .LICENSE_ERROR =>
    "Vuforia cannot initialize because a valid license configuration is required."
  | .LICENSE_CONFIG_MISSING_KEY =>
    "Vuforia failed to initialize because the license key is missing."
  | .LICENSE_CONFIG_INVALID_KEY =>
    "Vuforia failed to initialize because the license key is invalid."
  | .LICENSE_CONFIG_NO_NETWORK_PERMANENT =>
    "Vuforia failed to initialize because the license check encountered a permanent network error."
  | .LICENSE_CONFIG_NO_NETWORK_TRANSIENT =>
    "Vuforia failed to initialize because the license check encountered a temporary network error."
  | .LICENSE_CONFIG_BAD_REQUEST =>
    "Vuforia failed to initialize because the request to the license server is malformed, ensure the app has valid name and version fields."
  | .LICENSE_CONFIG_KEY_CANCELED =>
    "Vuforia failed to initialize because the license key was canceled."
  | .LICENSE_CONFIG_PRODUCT_TYPE_MISMATCH =>
    "Vuforia failed to initialize because the license key is for the wrong product type."
  | .LICENSE_CONFIG_UNKNOWN =>
    "Vuforia failed to initialize because the license check encountered an unknown error."
  | .RENDER_CONFIG_UNSUPPORTED_BACKEND =>
    "Vuforia failed to initialize because the requested rendering backend is not supported on this platform or device."
  | .RENDER_CONFIG_FAILED_TO_SET_VIDEO_BG_VIEWPORT =>
    "Vuforia failed to initialize because the requested videobackground viewport could not be set."
  | _ => "Vuforia initialization failed"

/-- Callbacks surfaced to the UI layer by `initAR`. -/
inductive CallbackEvent
  | showError (msg : String)
  | initDone
deriving DecidableEq, Repr

/-- Results the engine returns to the calls made during
`AppController::initAR` (through `initVuforiaInternal` and
`createObservers`). -/
structure InitAREnv where
  enginePreexists : Bool
  addLicenseResult : VuResult
  addPlatformResult : VuResult
  addRenderResult : VuResult
  engineCreateResult : VuResult
  engineCreateError : VuEngineCreationError
  engineNullAfterCreate : Bool
  setNearFarResult : VuResult
  devicePoseObserverResult : VuResult
  objectObserverResult : VuResult
deriving DecidableEq, Repr

/-- `AppController::initVuforiaInternal` (Android build, so the
platform-specific configuration branch is present): returns whether it
succeeded and the callbacks it invoked. -/
def initVuforiaInternal (env : InitAREnv) : Bool × List CallbackEvent :=
  if env.enginePreexists then (false, [])
  else if env.addLicenseResult ≠ VuResult.VU_SUCCESS then
    (false,
      [CallbackEvent.showError
        "Vuforia failed to initialize because the license key could not be added to the configuration"])
  else if env.addPlatformResult ≠ VuResult.VU_SUCCESS then
    (false,
      [CallbackEvent.showError
        "Vuforia failed to initialize, could not apply platform-specific configuration"])
  else if env.addRenderResult ≠ VuResult.VU_SUCCESS then
    (false,
      [CallbackEvent.showError "Vuforia failed to initialize, could not configure rendering"])
  else if env.engineCreateResult ≠ VuResult.VU_SUCCESS then
    (false, [CallbackEvent.showError (initErrorToString env.engineCreateError)])
  else if env.engineNullAfterCreate then
    (false, [CallbackEvent.showError "Vuforia initialization failed."])
  else if env.setNearFarResult ≠ VuResult.VU_SUCCESS then
    (false, [])
  else (true, [])

/-- `AppController::createObservers`: returns whether it succeeded and the
callbacks it invoked.  Device-pose observer creation failure only logs. -/
def createObservers (env : InitAREnv) (target : Nat) : Bool × List CallbackEvent :=
  if env.devicePoseObserverResult ≠ VuResult.VU_SUCCESS then (false, [])
  else if target = IMAGE_TARGET_ID then
    if env.objectObserverResult ≠ VuResult.VU_SUCCESS then
      (false, [CallbackEvent.showError "Error creating image target observer"])
    else (true, [])
  else
    if env.objectObserverResult ≠ VuResult.VU_SUCCESS then
      (false, [CallbackEvent.showError "Error creating model target observer"])
    else (true, [])

/-- `AppController::initAR`: the callbacks invoked, in order. -/
def initAR (env : InitAREnv) (target : Nat) : List CallbackEvent :=
  let r1 := initVuforiaInternal env
  if !r1.1 then r1.2
  else
    let r2 := createObservers env target
    if !r2.1 then r1.2 ++ r2.2
    else r1.2 ++ r2.2 ++ [CallbackEvent.initDone]

/-- An environment for `initAR` in which every engine call succeeds. -/
def initAllSuccessEnv : InitAREnv :=
  ⟨false, VuResult.VU_SUCCESS, VuResult.VU_SUCCESS, VuResult.VU_SUCCESS,
    VuResult.VU_SUCCESS, VuEngineCreationError.NONE, false, VuResult.VU_SUCCESS,
    VuResult.VU_SUCCESS, VuResult.VU_SUCCESS⟩

/-- An environment for `initAR` in which `vuEngineCreate` fails with error
code `c` and everything before it succeeds. -/
def engineCreateFailEnv (c : VuEngineCreationError) : InitAREnv :=
  ⟨false, VuResult.VU_SUCCESS, VuResult.VU_SUCCESS, VuResult.VU_SUCCESS,
    VuResult.VU_FAILED, c, false, VuResult.VU_SUCCESS,
    VuResult.VU_SUCCESS, VuResult.VU_SUCCESS⟩

/-- An environment for `initAR` in which only the creation of the
device-pose observer fails. -/
def devicePoseFailureEnv : InitAREnv :=
  ⟨false, VuResult.VU_SUCCESS, VuResult.VU_SUCCESS, VuResult.VU_SUCCESS,
    VuResult.VU_SUCCESS, VuEngineCreationError.NONE, false, VuResult.VU_SUCCESS,
    VuResult.VU_FAILED, VuResult.VU_SUCCESS⟩

/-- The cached handles and flags of the controller relevant to teardown;
`true` for a handle member means the handle is non-null. -/
structure Handles where
  mEngine : Bool
  mRenderController : Bool
  mPlatformController : Bool
  mObjectObserver : Bool
  mDevicePoseObserver : Bool
  mARStarted : Bool
deriving DecidableEq, Repr, Fintype

/-- Results the engine returns to the calls made by
`AppController::deinitAR`. -/
structure DeinitEnv where
  isRunning : Bool
  stopResult : VuResult
  engineDestroyResult : VuResult
deriving DecidableEq, Repr, Fintype

/-- `AppController::destroyObservers`: destroys the object observer, then
the device-pose observer (each only if non-null), and nulls both handles. -/
def destroyObservers (h : Handles) : Handles × List EngineCall :=
  ({ h with mObjectObserver := false, mDevicePoseObserver := false },
    (if h.mObjectObserver then [EngineCall.destroyObjectObserver] else []) ++
      (if h.mDevicePoseObserver then [EngineCall.destroyDevicePoseObserver] else []))

/-- `AppController::deinitAR`: no-op when `mEngine` is null; otherwise calls
`stopAR`, `destroyObservers`, then `vuEngineDestroy`, and nulls the engine,
render-controller and platform-controller handles only when the destroy
call succeeds (the source returns early on destroy failure). -/
def deinitAR (env : DeinitEnv) (h : Handles) : Handles × List EngineCall :=
  if !h.mEngine then (h, [])
  else
    let stopR := stopAR ⟨h.mEngine, env.isRunning, env.stopResult⟩ h.mARStarted
    let h1 : Handles := { h with mARStarted := stopR.2.1 }
    let d := destroyObservers h1
    let calls := stopR.2.2 ++ d.2 ++ [EngineCall.engineDestroy]
    if env.engineDestroyResult ≠ VuResult.VU_SUCCESS then (d.1, calls)
    else
      ({ d.1 with
          mEngine := false, mRenderController := false, mPlatformController := false },
        calls)

/-- A `deinitAR` environment in which `vuEngineDestroy` fails. -/
def deinitDestroyFailEnv : DeinitEnv :=
  ⟨false, VuResult.VU_SUCCESS, VuResult.VU_FAILED⟩

/-- A handle state with every cached handle non-null and AR not started. -/
def allHandles : Handles := ⟨true, true, true, true, true, false⟩

/-- Opaque token standing for a `VuMatrix44F` value; the controller only
copies matrices on the modelled paths and never inspects their entries. -/
structure VuMatrix44F where
  tag : Nat
deriving DecidableEq, Repr

/-- `vuIdentityMatrix44F()`. -/
def vuIdentityMatrix44F : VuMatrix44F := ⟨0⟩

/-- `AppController::DevicePoseData`: the cached last known device pose
(`mLatestDevicePoseData`). -/
structure DevicePoseData where
  pose : VuMatrix44F
  poseStatus : VuObservationPoseStatus
  poseStatusInfo : VuDevicePoseStatusInfo
deriving DecidableEq, Repr

/-- The default-constructed `DevicePoseData` from AppController.h. -/
def DevicePoseData.init : DevicePoseData :=
  ⟨vuIdentityMatrix44F, VuObservationPoseStatus.NO_POSE,
    VuDevicePoseStatusInfo.UNKNOWN⟩

/-- One device-pose observation as read by `updateDevicePose`. -/
structure DevicePoseObservation where
  poseStatus : VuObservationPoseStatus
  pose : VuMatrix44F
  statusInfo : VuDevicePoseStatusInfo
deriving DecidableEq, Repr

/-- Engine results consumed by `AppController::updateDevicePose`. -/
structure DevicePoseEnv where
  getObservationsResult : VuResult
  observations : List DevicePoseObservation
deriving DecidableEq, Repr

/-- `AppController::updateDevicePose`: recompute `mLatestDevicePoseData`
from the first device-pose observation of the current state snapshot;
defaults to identity pose, NO_POSE and NORMAL when there is no observation
with a pose. -/
def updateDevicePose (env : DevicePoseEnv) : DevicePoseData :=
  let d0 : DevicePoseData :=
    ⟨vuIdentityMatrix44F, VuObservationPoseStatus.NO_POSE,
      VuDevicePoseStatusInfo.NORMAL⟩
  if env.getObservationsResult ≠ VuResult.VU_SUCCESS then d0
  else
    match env.observations.head? with
    | none => d0
    | some ob =>
      if ob.poseStatus ≠ VuObservationPoseStatus.NO_POSE then
        ⟨ob.pose, ob.poseStatus, ob.statusInfo⟩
      else d0

/-- Results the engine returns to the calls made by
`AppController::prepareToRender`. -/
structure PrepareEnv where
  acquireResult : VuResult
  hasCameraFrame : Bool
  getRenderStateResult : VuResult
  vbMeshValid : Bool
  updateVBTextureResult : VuResult
  devicePose : DevicePoseEnv
deriving DecidableEq, Repr

/-- Outcome of `AppController::prepareToRender`: return value, whether a
state snapshot is held afterwards (`mVuforiaState != nullptr`), whether the
viewport out-parameter was written, whether the video-background texture
was updated, the cached device pose afterwards, and the engine calls
issued. -/
structure PrepareResult where
  ret : Bool
  stateHeld : Bool
  viewportWritten : Bool
  vbTextureUpdated : Bool
  latestDevicePose : DevicePoseData
  calls : List EngineCall
deriving DecidableEq, Repr

/-- `AppController::prepareToRender`: acquires the latest state snapshot
(one `vuEngineAcquireLatestState` call; on failure `mVuforiaState` is left
unchanged), bails out before writing any render data when the snapshot has
no camera frame, no render state or no video-background mesh, and on the
successful path updates the cached device pose. -/
def prepareToRender (env : PrepareEnv) (stateHeld : Bool) (dp : DevicePoseData) :
    PrepareResult :=
  if env.acquireResult ≠ VuResult.VU_SUCCESS then
    ⟨false, stateHeld, false, false, dp, [EngineCall.acquireLatestState]⟩
  else if !env.hasCameraFrame then
    ⟨false, true, false, false, dp, [EngineCall.acquireLatestState]⟩
  else if env.getRenderStateResult ≠ VuResult.VU_SUCCESS then
    ⟨false, true, false, false, dp, [EngineCall.acquireLatestState]⟩
  else if !env.vbMeshValid then
    ⟨false, true, false, false, dp, [EngineCall.acquireLatestState]⟩
  else if env.updateVBTextureResult ≠ VuResult.VU_SUCCESS then
    ⟨false, true, true, false, dp, [EngineCall.acquireLatestState]⟩
  else
    ⟨true, true, true, true, updateDevicePose env.devicePose,
      [EngineCall.acquireLatestState]⟩

/-- The per-frame controller state relevant to snapshot handling. -/
structure FrameState where
  reloc : RelocState
  latestDevicePose : DevicePoseData
  stateHeld : Bool
deriving DecidableEq, Repr

/-- `AppController::finishRender` in full: runs the relocalization check on
the cached device pose, then releases the held state snapshot (if any)
exactly once and nulls `mVuforiaState`. -/
def finishRender (fs : FrameState) (now : Nat) : FrameState × List EngineCall :=
  let r := finishRenderRelocCheck fs.reloc
    ⟨fs.latestDevicePose.poseStatus, fs.latestDevicePose.poseStatusInfo⟩ now
  (⟨r.1, fs.latestDevicePose, false⟩,
    (if r.2 then [EngineCall.resetWorldTracking] else []) ++
      (if fs.stateHeld then [EngineCall.stateRelease] else []))

/-- One render-frame round as driven by the platform render callback:
`prepareToRender` then `finishRender`. -/
def renderFrame (env : PrepareEnv) (fs : FrameState) (now : Nat) :
    FrameState × List EngineCall :=
  let p := prepareToRender env fs.stateHeld fs.latestDevicePose
  let f := finishRender ⟨fs.reloc, p.latestDevicePose, p.stateHeld⟩ now
  (f.1, p.calls ++ f.2)

/-- A `prepareToRender` environment in which state acquisition fails. -/
def prepareAcquireFailEnv : PrepareEnv :=
  ⟨VuResult.VU_FAILED, true, VuResult.VU_SUCCESS, true, VuResult.VU_SUCCESS,
    ⟨VuResult.VU_SUCCESS, []⟩⟩

/-- A `prepareToRender` environment in which every call succeeds and a
tracked device-pose observation is present. -/
def prepareSuccessEnv : PrepareEnv :=
  ⟨VuResult.VU_SUCCESS, true, VuResult.VU_SUCCESS, true, VuResult.VU_SUCCESS,
    ⟨VuResult.VU_SUCCESS,
      [⟨VuObservationPoseStatus.TRACKED, ⟨3⟩, VuDevicePoseStatusInfo.NORMAL⟩]⟩⟩

/-- One model-target observation as read by `getModelTargetResult`. -/
structure ModelTargetObservation where
  poseStatus : VuObservationPoseStatus
  pose : VuMatrix44F
  activeGuideViewName : String
deriving DecidableEq, Repr

/-- Results the engine returns to the calls made by
`AppController::getModelTargetResult`. -/
structure ModelTargetEnv where
  target : Nat
  getObservationsResult : VuResult
  observations : List ModelTargetObservation
  getGuideViewsResult : VuResult
  guideViews : List String
deriving DecidableEq, Repr

/-- The guide-view lookup lambda in `getModelTargetResult`: the first guide
view of the list whose name equals the active guide-view name, if any. -/
def selectGuideView (guideViews : List String) (activeName : String) : Option String :=
  guideViews.find? (fun n => n == activeName)

/-- `AppController::getModelTargetResult`: returns whether the model target
is tracked with a pose, together with the new value of
`mGuideViewModelTarget` (modelled by the name of the guide view it points
to; `none` is a null pointer). -/
def getModelTargetResult (env : ModelTargetEnv)
    (mGuideViewModelTarget : Option String) : Bool × Option String :=
  if env.target ≠ MODEL_TARGET_ID then (false, mGuideViewModelTarget)
  else if env.getObservationsResult ≠ VuResult.VU_SUCCESS then
    (false, mGuideViewModelTarget)
  else
    match env.observations.head? with
    | none => (false, mGuideViewModelTarget)
    | some ob =>
      if ob.poseStatus = VuObservationPoseStatus.NO_POSE then
        if env.getGuideViewsResult ≠ VuResult.VU_SUCCESS then
          (false, mGuideViewModelTarget)
        else (false, selectGuideView env.guideViews ob.activeGuideViewName)
      else (true, none)

/-- Results the engine returns to the calls made by
`AppController::getModelTargetGuideView`. -/
structure GuideViewEnv where
  getCameraIntrinsicsResult : VuResult
  isImageOutdatedResult : VuResult
  getImageResult : VuResult
  getImageInfoResult : VuResult
deriving DecidableEq, Repr, Fintype

/-- `AppController::getModelTargetGuideView`: returns whether guide-view
rendering data was produced for this frame; `false` immediately when
`mGuideViewModelTarget` is null. -/
def getModelTargetGuideView (env : GuideViewEnv)
    (mGuideViewModelTarget : Option String) : Bool :=
  match mGuideViewModelTarget with
  | none => false
  | some _ =>
    if env.getCameraIntrinsicsResult ≠ VuResult.VU_SUCCESS then false
    else if env.isImageOutdatedResult ≠ VuResult.VU_SUCCESS then false
    else if env.getImageResult ≠ VuResult.VU_SUCCESS then false
    else if env.getImageInfoResult ≠ VuResult.VU_SUCCESS then false
    else true

/-- A model-target environment whose first observation is tracked. -/
def modelTargetTrackedEnv : ModelTargetEnv :=
  ⟨MODEL_TARGET_ID, VuResult.VU_SUCCESS,
    [⟨VuObservationPoseStatus.TRACKED, ⟨2⟩, "gv"⟩], VuResult.VU_SUCCESS, ["gv"]⟩

/-- A model-target environment whose first observation has no pose and
whose guide-view list contains the active guide view. -/
def modelTargetNoPoseEnv : ModelTargetEnv :=
  ⟨MODEL_TARGET_ID, VuResult.VU_SUCCESS,
    [⟨VuObservationPoseStatus.NO_POSE, ⟨2⟩, "gv"⟩], VuResult.VU_SUCCESS, ["gv"]⟩

/-- A guide-view environment in which every call succeeds. -/
def guideViewSuccessEnv : GuideViewEnv :=
  ⟨VuResult.VU_SUCCESS, VuResult.VU_SUCCESS, VuResult.VU_SUCCESS, VuResult.VU_SUCCESS⟩

end AppCtl

namespace AppCtl

theorem relocCheck_not_reloc (s : RelocState) (d : PoseObs) (now : Nat)
    (h : isRelocalizing d = false) :
    finishRenderRelocCheck s d now = (⟨false, s.mEnteredRelocalizingState⟩, false) := by
  simp [finishRenderRelocCheck, h]

theorem relocCheck_reset (s : RelocState) (d : PoseObs) (now : Nat)
    (h : isRelocalizing d = true)
    (hgt : now - relocEntered s now > MAX_RELOCALIZING_SECONDS) :
    finishRenderRelocCheck s d now = (⟨false, relocEntered s now⟩, true) := by
  simp [finishRenderRelocCheck, h, hgt]

theorem relocCheck_timing (s : RelocState) (d : PoseObs) (now : Nat)
    (h : isRelocalizing d = true)
    (hle : ¬ (now - relocEntered s now > MAX_RELOCALIZING_SECONDS)) :
    finishRenderRelocCheck s d now = (⟨true, relocEntered s now⟩, false) := by
  simp [finishRenderRelocCheck, h, hle]

theorem relocCheck_snd_true_iff (s : RelocState) (d : PoseObs) (now : Nat) :
    (finishRenderRelocCheck s d now).2 = true ↔
      isRelocalizing d = true ∧
        now - relocEntered s now > MAX_RELOCALIZING_SECONDS := by
  by_cases h : isRelocalizing d = true
  · by_cases hgt : now - relocEntered s now > MAX_RELOCALIZING_SECONDS
    · simp [finishRenderRelocCheck, h, hgt]
    · simp [finishRenderRelocCheck, h, hgt]
  · simp [finishRenderRelocCheck, h]

theorem stateBefore_zero (fs : List Frame) : stateBefore fs 0 = RelocState.init := rfl

theorem stateBefore_succ (fs : List Frame) (j : Nat) (h : j < fs.length) :
    stateBefore fs (j + 1) = stepReloc (stateBefore fs j) (fs.get ⟨j, h⟩) := by
  unfold stateBefore
  rw [List.take_succ, List.foldl_append]
  simp [List.getElem?_eq_getElem h]

/-- Invariant of the relocalization timer: whenever the timing flag is set
before frame `j`, the stored entry time is the time of an earlier frame `i`
and all frames from `i` up to (excluding) `j` were limited+relocalizing. -/
theorem entered_sound (fs : List Frame) :
    ∀ j : Nat, j ≤ fs.length →
      (stateBefore fs j).mTimingRelocalizingState = true →
      ∃ i : Fin fs.length, i.val < j ∧
        (stateBefore fs j).mEnteredRelocalizingState = (fs.get i).now ∧
        ∀ k : Fin fs.length, i.val ≤ k.val → k.val < j →
          isRelocalizing (fs.get k).obs = true := by
  intro j
  induction j with
  | zero =>
    intro _ ht
    exact absurd ht (by simp [stateBefore_zero, RelocState.init])
  | succ j ih =>
    intro hj ht
    have hjlen : j < fs.length := by omega
    rw [stateBefore_succ fs j hjlen] at ht ⊢
    by_cases hrel : isRelocalizing (fs.get ⟨j, hjlen⟩).obs = true
    · by_cases hgt : (fs.get ⟨j, hjlen⟩).now -
          relocEntered (stateBefore fs j) (fs.get ⟨j, hjlen⟩).now > MAX_RELOCALIZING_SECONDS
      · rw [stepReloc, relocCheck_reset _ _ _ hrel hgt] at ht
        simp at ht
      · rw [stepReloc, relocCheck_timing _ _ _ hrel hgt]
        by_cases hst : (stateBefore fs j).mTimingRelocalizingState = true
        · obtain ⟨i, hi, hent, hall⟩ := ih (by omega) hst
          refine ⟨i, by omega, ?_, ?_⟩
          · simp [relocEntered, hst, hent]
          · intro k hik hkj
            by_cases hkj' : k.val < j
            · exact hall k hik hkj'
            · have hkeq : k = ⟨j, hjlen⟩ := Fin.ext (show k.val = j by omega)
              rw [hkeq]; exact hrel
        · refine ⟨⟨j, hjlen⟩, by show j < j + 1; omega, ?_, ?_⟩
          · simp [relocEntered, hst]
          · intro k hik hkj
            have hik2 : j ≤ k.val := hik
            have hkeq : k = ⟨j, hjlen⟩ := Fin.ext (show k.val = j by omega)
            rw [hkeq]; exact hrel
    · rw [stepReloc,
        relocCheck_not_reloc _ _ _ (by simpa using hrel)] at ht
      simp at ht

/-- C1: over any sequence of cached device-pose statuses observed at
successive `finishRender` calls (with monotone steady-clock times),
`vuEngineResetWorldTracking` is invoked at some call if and only if the
cached status was continuously limited+relocalizing over a stretch of calls
spanning more than the 15-second threshold without interruption. -/
theorem reset_iff_sustained_relocalization (fs : List Frame)
    (hmono : ∀ i j : Fin fs.length, i ≤ j → (fs.get i).now ≤ (fs.get j).now) :
    (∃ j : Fin fs.length, resetAt fs j = true) ↔
      ∃ i j : Fin fs.length, i ≤ j ∧
        (∀ k : Fin fs.length, i ≤ k → k ≤ j → isRelocalizing (fs.get k).obs = true) ∧
        (fs.get j).now - (fs.get i).now > MAX_RELOCALIZING_SECONDS := by
  constructor
  · rintro ⟨j, hj⟩
    rw [resetAt, relocCheck_snd_true_iff] at hj
    obtain ⟨hrel, hgt⟩ := hj
    by_cases hst : (stateBefore fs j.val).mTimingRelocalizingState = true
    · obtain ⟨i, hi, hent, hall⟩ := entered_sound fs j.val (le_of_lt j.isLt) hst
      refine ⟨i, j, by rw [Fin.le_def]; omega, ?_, ?_⟩
      · intro k hik hkj
        rw [Fin.le_def] at hik hkj
        by_cases hkj' : k.val < j.val
        · exact hall k hik hkj'
        · have hkeq : k = j := Fin.ext (by omega)
          rw [hkeq]
          simpa using hrel
      · rw [relocEntered, if_pos hst, hent] at hgt
        simpa using hgt
    · exfalso
      rw [relocEntered, if_neg hst] at hgt
      simp [MAX_RELOCALIZING_SECONDS] at hgt
  · rintro ⟨i, j, hij, hall, hdur⟩
    rw [Fin.le_def] at hij
    by_contra hno
    push_neg at hno
    simp only [Bool.not_eq_true] at hno
    have hii : i.val < j.val := by
      rcases Nat.lt_or_ge i.val j.val with h | h
      · exact h
      · exfalso
        have : i = j := Fin.ext (by omega)
        rw [this] at hdur
        simp [MAX_RELOCALIZING_SECONDS] at hdur
    have aux : ∀ k : Nat, i.val + 1 ≤ k → k ≤ j.val →
        (stateBefore fs k).mTimingRelocalizingState = true ∧
        (stateBefore fs k).mEnteredRelocalizingState ≤ (fs.get i).now := by
      intro k hk
      induction k, hk using Nat.le_induction with
      | base =>
        intro _
        have hilen : i.val < fs.length := i.isLt
        have hreli : isRelocalizing (fs.get i).obs = true :=
          hall i le_rfl (by rw [Fin.le_def]; omega)
        have hnored := hno i
        rw [resetAt] at hnored
        have hngt : ¬ ((fs.get i).now -
            relocEntered (stateBefore fs i.val) (fs.get i).now >
              MAX_RELOCALIZING_SECONDS) := by
          intro hgt
          have htrue := (relocCheck_snd_true_iff (stateBefore fs i.val)
            (fs.get i).obs (fs.get i).now).mpr ⟨hreli, hgt⟩
          rw [hnored] at htrue
          exact Bool.false_ne_true htrue
        rw [stateBefore_succ fs i.val hilen]
        have hfin : (⟨i.val, hilen⟩ : Fin fs.length) = i := Fin.ext rfl
        rw [hfin, stepReloc, relocCheck_timing _ _ _ hreli hngt]
        constructor
        · rfl
        · by_cases hst : (stateBefore fs i.val).mTimingRelocalizingState = true
          · obtain ⟨m, hm, hent, _⟩ := entered_sound fs i.val (le_of_lt hilen) hst
            have : (fs.get m).now ≤ (fs.get i).now :=
              hmono m i (by rw [Fin.le_def]; omega)
            simp only [relocEntered, if_pos hst, hent]
            exact this
          · simp [relocEntered, hst]
      | succ k hk ih =>
        intro hkj
        have hklen : k < fs.length := by
          have := j.isLt; omega
        obtain ⟨hti, hent⟩ := ih (by omega)
        have hrelk : isRelocalizing (fs.get ⟨k, hklen⟩).obs = true :=
          hall ⟨k, hklen⟩ (by rw [Fin.le_def]; show i.val ≤ k; omega)
            (by rw [Fin.le_def]; show k ≤ j.val; omega)
        have hnored := hno ⟨k, hklen⟩
        rw [resetAt] at hnored
        have hngt : ¬ ((fs.get ⟨k, hklen⟩).now -
            relocEntered (stateBefore fs k) (fs.get ⟨k, hklen⟩).now >
              MAX_RELOCALIZING_SECONDS) := by
          intro hgt
          have htrue := (relocCheck_snd_true_iff (stateBefore fs k)
            (fs.get ⟨k, hklen⟩).obs (fs.get ⟨k, hklen⟩).now).mpr ⟨hrelk, hgt⟩
          rw [hnored] at htrue
          exact Bool.false_ne_true htrue
        rw [stateBefore_succ fs k hklen, stepReloc,
          relocCheck_timing _ _ _ hrelk hngt]
        refine ⟨rfl, ?_⟩
        simpa only [relocEntered, if_pos hti] using hent
    obtain ⟨htj, hentj⟩ := aux j.val (by omega) le_rfl
    have hrelj : isRelocalizing (fs.get j).obs = true :=
      hall j (by rw [Fin.le_def]; omega) le_rfl
    have hgtj : (fs.get j).now -
        relocEntered (stateBefore fs j.val) (fs.get j).now >
          MAX_RELOCALIZING_SECONDS := by
      rw [relocEntered, if_pos htj]
      omega
    have hfalse := hno j
    have htrue := (relocCheck_snd_true_iff (stateBefore fs j.val)
      (fs.get j).obs (fs.get j).now).mpr ⟨hrelj, hgtj⟩
    rw [resetAt] at hfalse
    rw [hfalse] at htrue
    exact Bool.false_ne_true htrue

/-- Witness for C1 at a concrete frame sequence: two limited+relocalizing
frames 16 seconds apart. -/
theorem reset_iff_sustained_relocalization_witness :
    (∃ j : Fin twoRelocFrames.length, resetAt twoRelocFrames j = true) ↔
      ∃ i j : Fin twoRelocFrames.length, i ≤ j ∧
        (∀ k : Fin twoRelocFrames.length, i ≤ k → k ≤ j →
          isRelocalizing (twoRelocFrames.get k).obs = true) ∧
        (twoRelocFrames.get j).now - (twoRelocFrames.get i).now >
          MAX_RELOCALIZING_SECONDS :=
  reset_iff_sustained_relocalization twoRelocFrames (by decide)

/-- C2 counterexample: at a frame rate of 1 frame per second, the spec
scenario of `threshold_seconds * frame_rate + 1 = 16` consecutive
limited+relocalizing frames at the assumed 1-second frame interval invokes
no world-tracking reset at all (the elapsed time at the last frame is
exactly the threshold, and the code requires strictly more), hence not
exactly one. -/
theorem threshold_frames_invoke_no_reset :
    (relocTrace RelocState.init thresholdFramesAtOneHz).countP (fun p => p.2) = 0 ∧
      ¬ ((relocTrace RelocState.init thresholdFramesAtOneHz).countP
          (fun p => p.2) = 1) := by
  constructor
  · decide
  · decide

/-- C2 (amended): if at a `finishRender` call the controller is timing the
relocalizing state and the elapsed time since entry exceeds the 15-second
threshold, the world-tracking reset is invoked (exactly once for that call)
and the machine transitions back to the non-relocalizing state; in
particular `(threshold_seconds + 1) * frame_rate + 1` consecutive
limited+relocalizing frames at a 1 Hz frame rate yield exactly one reset,
after which the timer state is clear. -/
theorem reset_exactly_once_after_threshold (s : RelocState) (d : PoseObs) (now : Nat)
    (hrel : isRelocalizing d = true)
    (ht : s.mTimingRelocalizingState = true)
    (hgt : now - s.mEnteredRelocalizingState > MAX_RELOCALIZING_SECONDS) :
    finishRenderRelocCheck s d now = (⟨false, s.mEnteredRelocalizingState⟩, true) ∧
      (relocTrace RelocState.init oneHzResetFrames).countP (fun p => p.2) = 1 ∧
      ((relocTrace RelocState.init oneHzResetFrames).getLast?.map
        (fun p => p.1.mTimingRelocalizingState)) = some false := by
  refine ⟨?_, by decide, by decide⟩
  have hent : relocEntered s now = s.mEnteredRelocalizingState := by
    simp [relocEntered, ht]
  rw [relocCheck_reset s d now hrel (by rw [hent]; exact hgt), hent]

/-- Witness for C2 (amended) at a concrete timer state and time. -/
theorem reset_exactly_once_after_threshold_witness :
    finishRenderRelocCheck ⟨true, 0⟩ relocObs 16 = (⟨false, 0⟩, true) ∧
      (relocTrace RelocState.init oneHzResetFrames).countP (fun p => p.2) = 1 ∧
      ((relocTrace RelocState.init oneHzResetFrames).getLast?.map
        (fun p => p.1.mTimingRelocalizingState)) = some false :=
  reset_exactly_once_after_threshold ⟨true, 0⟩ relocObs 16
    (by decide) (by decide) (by decide)

/-- C3: `mEnteredRelocalizingState` is (re)set to the current time exactly
at `finishRender` calls where the cached status is limited+relocalizing and
the machine was not already timing (it is left unchanged at every other
call), and every call where the status is not limited+relocalizing leaves
the machine with the timing flag clear. -/
theorem relocalizing_timer_start_and_clear (s : RelocState) (d : PoseObs) (now : Nat) :
    ((finishRenderRelocCheck s d now).1.mEnteredRelocalizingState =
      if isRelocalizing d && !s.mTimingRelocalizingState then now
      else s.mEnteredRelocalizingState) ∧
    (isRelocalizing d = false →
      (finishRenderRelocCheck s d now).1.mTimingRelocalizingState = false) := by
  constructor
  · by_cases hrel : isRelocalizing d = true
    · by_cases hgt : now - relocEntered s now > MAX_RELOCALIZING_SECONDS
      · rw [relocCheck_reset s d now hrel hgt]
        by_cases hst : s.mTimingRelocalizingState = true <;>
          simp [relocEntered, hrel, hst]
      · rw [relocCheck_timing s d now hrel hgt]
        by_cases hst : s.mTimingRelocalizingState = true <;>
          simp [relocEntered, hrel, hst]
    · rw [relocCheck_not_reloc s d now (by simpa using hrel)]
      simp [Bool.eq_false_iff.mpr hrel]
  · intro h
    rw [relocCheck_not_reloc s d now h]

/-- Witness for C3: timer entry is stamped on the transition into
relocalizing, and a tracked status clears the timing flag. -/
theorem relocalizing_timer_start_and_clear_witness :
    (finishRenderRelocCheck ⟨false, 5⟩ relocObs 7).1.mEnteredRelocalizingState = 7 ∧
      (finishRenderRelocCheck ⟨true, 5⟩ trackedObs 7).1.mTimingRelocalizingState = false :=
  ⟨by rw [(relocalizing_timer_start_and_clear ⟨false, 5⟩ relocObs 7).1]; decide,
   (relocalizing_timer_start_and_clear ⟨true, 5⟩ trackedObs 7).2 (by decide)⟩

/-- C4: `startAR` with a null engine or an already running engine, and
`stopAR` with a null engine or a non-running engine, return `false`, issue
no engine call (no start, no video-mode or focus change, no stop), and
leave `mARStarted` unchanged. -/
theorem start_stop_wrong_state_no_side_effects
    (senv : StartAREnv) (tenv : StopAREnv) (a b : Bool)
    (hs : senv.engineValid = false ∨ senv.isRunning = true)
    (ht : tenv.engineValid = false ∨ tenv.isRunning = false) :
    startAR senv a = (false, a, []) ∧ stopAR tenv b = (false, b, []) := by
  constructor
  · rcases hs with h | h
    · simp [startAR, h]
    · by_cases hv : senv.engineValid <;> simp [startAR, hv, h]
  · rcases ht with h | h
    · simp [stopAR, h]
    · by_cases hv : tenv.engineValid <;> simp [stopAR, hv, h]

/-- Witness for C4: `startAR` with a null engine and `stopAR` on a
non-running engine are guarded no-ops. -/
theorem start_stop_wrong_state_no_side_effects_witness :
    startAR ⟨false, false, VuResult.VU_SUCCESS, VuResult.VU_SUCCESS,
        VuResult.VU_SUCCESS⟩ true = (false, true, []) ∧
      stopAR ⟨true, false, VuResult.VU_SUCCESS⟩ true = (false, true, []) :=
  start_stop_wrong_state_no_side_effects _ _ true true (Or.inl rfl) (Or.inr rfl)

/-- C9: whenever `stopAR` is called with a valid and running engine, the
`mARStarted` flag is `false` after the call (so `isARStarted()` returns
`false`), even when `vuEngineStop` fails, in which case `stopAR` itself
returns `false`: the flag is cleared before the stop is attempted. -/
theorem stopAR_clears_started_flag (env : StopAREnv) (a : Bool)
    (hv : env.engineValid = true) (hr : env.isRunning = true) :
    (stopAR env a).2.1 = false ∧
      (env.stopResult = VuResult.VU_FAILED → (stopAR env a).1 = false) := by
  by_cases hres : env.stopResult = VuResult.VU_SUCCESS <;>
    simp [stopAR, hv, hr, hres]

/-- Witness for C9 with a failing `vuEngineStop`. -/
theorem stopAR_clears_started_flag_witness :
    (stopAR ⟨true, true, VuResult.VU_FAILED⟩ true).2.1 = false ∧
      ((⟨true, true, VuResult.VU_FAILED⟩ : StopAREnv).stopResult = VuResult.VU_FAILED →
        (stopAR ⟨true, true, VuResult.VU_FAILED⟩ true).1 = false) :=
  stopAR_clears_started_flag ⟨true, true, VuResult.VU_FAILED⟩ true rfl rfl

/-- C5 (code-bug evidence): on the all-success environment `initAR` invokes
the init-done callback; when engine creation fails, the error callback is
invoked with the message for the reported error code; but when only the
creation of the device-pose observer fails, `initAR` fails having invoked
no callback at all — `createObservers` only logs in that branch — although
the header documentation of `initAR` promises that `showErrorCallback` is
invoked whenever initialization fails. -/
theorem initAR_devicePose_failure_invokes_no_callback :
    initAR initAllSuccessEnv IMAGE_TARGET_ID = [CallbackEvent.initDone] ∧
      (∀ c : VuEngineCreationError,
        initAR (engineCreateFailEnv c) IMAGE_TARGET_ID =
          [CallbackEvent.showError (initErrorToString c)]) ∧
      initAR devicePoseFailureEnv IMAGE_TARGET_ID = [] := by
  refine ⟨rfl, ?_, rfl⟩
  intro c
  cases c <;> rfl

/-- C6 counterexample: with every handle non-null and `vuEngineDestroy`
failing, `deinitAR` returns with the engine handle still non-null, so it
does not null all cached handles. -/
theorem deinitAR_destroy_failure_keeps_engine_handle :
    (deinitAR deinitDestroyFailEnv allHandles).1.mEngine = true ∧
      (deinitAR deinitDestroyFailEnv allHandles).1.mRenderController = true := by
  constructor <;> rfl

/-- C6 (amended): `deinitAR` with a null engine is a no-op; otherwise it
stops the engine exactly when it is running, destroys the object and
device-pose observers (those that are non-null) before destroying the
engine instance, nulls both observer handles, and — provided
`vuEngineDestroy` succeeds — also nulls the engine, render-controller and
platform-controller handles (on destroy failure it returns early leaving
those three handles unchanged). -/
theorem deinitAR_teardown (env : DeinitEnv) (h : Handles) :
    (h.mEngine = false → deinitAR env h = (h, [])) ∧
    (h.mEngine = true →
      (deinitAR env h).2 =
        (if env.isRunning then [EngineCall.engineStop] else []) ++
          (if h.mObjectObserver then [EngineCall.destroyObjectObserver] else []) ++
          (if h.mDevicePoseObserver then [EngineCall.destroyDevicePoseObserver] else []) ++
          [EngineCall.engineDestroy] ∧
      (deinitAR env h).1.mObjectObserver = false ∧
      (deinitAR env h).1.mDevicePoseObserver = false ∧
      (env.engineDestroyResult = VuResult.VU_SUCCESS →
        (deinitAR env h).1.mEngine = false ∧
        (deinitAR env h).1.mRenderController = false ∧
        (deinitAR env h).1.mPlatformController = false)) := by
  revert env h
  decide

/-- Witness for C6: the no-op case on a null engine, and a full successful
teardown nulling every handle. -/
theorem deinitAR_teardown_witness :
    deinitAR ⟨false, VuResult.VU_SUCCESS, VuResult.VU_SUCCESS⟩
        ⟨false, true, true, true, true, false⟩ =
      (⟨false, true, true, true, true, false⟩, []) ∧
      (deinitAR ⟨true, VuResult.VU_SUCCESS, VuResult.VU_SUCCESS⟩ allHandles).1.mEngine =
        false :=
  ⟨(deinitAR_teardown ⟨false, VuResult.VU_SUCCESS, VuResult.VU_SUCCESS⟩
      ⟨false, true, true, true, true, false⟩).1 rfl,
   (((deinitAR_teardown ⟨true, VuResult.VU_SUCCESS, VuResult.VU_SUCCESS⟩
      allHandles).2 rfl).2.2.2 rfl).1⟩

/-- C7: `prepareToRender` fails without producing viewport or
video-background render data when state acquisition fails or when the
acquired snapshot has no camera frame yet; and whenever it returns `true`
the cached device pose has been recomputed by `updateDevicePose` from the
device-pose observations of the frame. -/
theorem prepareToRender_failure_and_success (env : PrepareEnv) (held : Bool)
    (dp : DevicePoseData) :
    (env.acquireResult = VuResult.VU_FAILED →
      prepareToRender env held dp =
        ⟨false, held, false, false, dp, [EngineCall.acquireLatestState]⟩) ∧
    (env.acquireResult = VuResult.VU_SUCCESS → env.hasCameraFrame = false →
      prepareToRender env held dp =
        ⟨false, true, false, false, dp, [EngineCall.acquireLatestState]⟩) ∧
    ((prepareToRender env held dp).ret = true →
      (prepareToRender env held dp).latestDevicePose =
        updateDevicePose env.devicePose) := by
  refine ⟨?_, ?_, ?_⟩
  · intro h
    simp [prepareToRender, h]
  · intro h1 h2
    simp [prepareToRender, h1, h2]
  · intro hret
    unfold prepareToRender at hret ⊢
    split_ifs at hret ⊢
    simp_all

/-- Witness for C7: a failed acquisition produces nothing, and the
all-success environment recomputes the cached device pose. -/
theorem prepareToRender_failure_and_success_witness :
    prepareToRender prepareAcquireFailEnv false DevicePoseData.init =
      ⟨false, false, false, false, DevicePoseData.init,
        [EngineCall.acquireLatestState]⟩ ∧
      (prepareToRender prepareSuccessEnv false DevicePoseData.init).latestDevicePose =
        updateDevicePose prepareSuccessEnv.devicePose :=
  ⟨(prepareToRender_failure_and_success prepareAcquireFailEnv false
      DevicePoseData.init).1 rfl,
   (prepareToRender_failure_and_success prepareSuccessEnv false
      DevicePoseData.init).2.2 rfl⟩

/-- C8: snapshot discipline — `prepareToRender` issues exactly one
state-acquisition call (hence acquires at most one snapshot into
`mVuforiaState`), `finishRender` releases the held snapshot exactly once
when one is held and not at all otherwise, and after `finishRender`
(and hence after every full render frame) no snapshot is held. -/
theorem snapshot_acquire_release_discipline (env : PrepareEnv) (fs : FrameState)
    (now : Nat) :
    (prepareToRender env fs.stateHeld fs.latestDevicePose).calls.count
        EngineCall.acquireLatestState ≤ 1 ∧
      (finishRender fs now).2.count EngineCall.stateRelease =
        (if fs.stateHeld then 1 else 0) ∧
      (finishRender fs now).1.stateHeld = false ∧
      (renderFrame env fs now).1.stateHeld = false := by
  refine ⟨?_, ?_, rfl, rfl⟩
  · unfold prepareToRender
    split_ifs <;> simp
  · unfold finishRender
    by_cases hr : (finishRenderRelocCheck fs.reloc
        ⟨fs.latestDevicePose.poseStatus, fs.latestDevicePose.poseStatusInfo⟩ now).2 <;>
      by_cases hh : fs.stateHeld <;>
        simp [hr, hh, List.count_cons, List.count_nil]

/-- C10: whenever `getModelTargetResult` reports the model target tracked
with a pose, it clears `mGuideViewModelTarget`, so an immediately following
`getModelTargetGuideView` returns `false`; and the guide-view pointer is
(re)assigned to a guide view (matched by the active guide-view name) only
when the first model-target observation has pose status NO_POSE. -/
theorem modelTarget_guideview_discipline (env : ModelTargetEnv)
    (g : Option String) (genv : GuideViewEnv) :
    ((getModelTargetResult env g).1 = true →
      (getModelTargetResult env g).2 = none ∧
        getModelTargetGuideView genv (getModelTargetResult env g).2 = false) ∧
    (∀ name : String, (getModelTargetResult env g).2 ≠ g →
      (getModelTargetResult env g).2 = some name →
      ∃ ob, env.observations.head? = some ob ∧
        ob.poseStatus = VuObservationPoseStatus.NO_POSE ∧
        some name = selectGuideView env.guideViews ob.activeGuideViewName) := by
  by_cases h1 : env.target = MODEL_TARGET_ID
  case neg =>
    refine ⟨?_, ?_⟩
    · intro hres
      simp [getModelTargetResult, h1] at hres
    · intro name hne _
      exact absurd (by simp [getModelTargetResult, h1]) hne
  by_cases h2 : env.getObservationsResult = VuResult.VU_SUCCESS
  case neg =>
    refine ⟨?_, ?_⟩
    · intro hres
      simp [getModelTargetResult, h1, h2] at hres
    · intro name hne _
      exact absurd (by simp [getModelTargetResult, h1, h2]) hne
  cases hob : env.observations.head? with
  | none =>
    refine ⟨?_, ?_⟩
    · intro hres
      simp [getModelTargetResult, h1, h2, hob] at hres
    · intro name hne _
      exact absurd (by simp [getModelTargetResult, h1, h2, hob]) hne
  | some ob =>
    by_cases h3 : ob.poseStatus = VuObservationPoseStatus.NO_POSE
    · by_cases h4 : env.getGuideViewsResult = VuResult.VU_SUCCESS
      · refine ⟨?_, ?_⟩
        · intro hres
          simp [getModelTargetResult, h1, h2, hob, h3, h4] at hres
        · intro name _ hsome
          refine ⟨ob, rfl, h3, ?_⟩
          simp [getModelTargetResult, h1, h2, hob, h3, h4] at hsome
          rw [hsome]
      · refine ⟨?_, ?_⟩
        · intro hres
          simp [getModelTargetResult, h1, h2, hob, h3, h4] at hres
        · intro name hne _
          exact absurd (by simp [getModelTargetResult, h1, h2, hob, h3, h4]) hne
    · refine ⟨?_, ?_⟩
      · intro _
        refine ⟨?_, ?_⟩
        · simp [getModelTargetResult, h1, h2, hob, h3]
        · have hval : (getModelTargetResult env g).2 = none := by
            simp [getModelTargetResult, h1, h2, hob, h3]
          rw [hval]
          rfl
      · intro name _ hsome
        have hval : (getModelTargetResult env g).2 = none := by
          simp [getModelTargetResult, h1, h2, hob, h3]
        rw [hval] at hsome
        exact absurd hsome (by simp)

/-- Witness for C10: a tracked observation clears the guide-view pointer
and makes `getModelTargetGuideView` return `false`; a no-pose observation
selects the guide view matching the active guide-view name. -/
theorem modelTarget_guideview_discipline_witness :
    ((getModelTargetResult modelTargetTrackedEnv (some "gv")).2 = none ∧
      getModelTargetGuideView guideViewSuccessEnv
        (getModelTargetResult modelTargetTrackedEnv (some "gv")).2 = false) ∧
      ∃ ob, modelTargetNoPoseEnv.observations.head? = some ob ∧
        ob.poseStatus = VuObservationPoseStatus.NO_POSE ∧
        some "gv" = selectGuideView modelTargetNoPoseEnv.guideViews
          ob.activeGuideViewName :=
  ⟨(modelTarget_guideview_discipline modelTargetTrackedEnv (some "gv")
      guideViewSuccessEnv).1 rfl,
   (modelTarget_guideview_discipline modelTargetNoPoseEnv none
      guideViewSuccessEnv).2 "gv" (by decide) (by decide)⟩

end AppCtl
